import Mathlib

/-!
Shallow embedding of the product-listing backend (server.py): a Flask app with
two psycopg2 connection pools (a primary for writes, a replica for reads), a
pooled query executor `run_query`, and three JSON routes over a single
`products` table.  Machine state is passed explicitly: a `World` holds the
durable database state behind each pool, each handler maps a world and the
request data to an HTTP response, the new world, and the trace of pool
acquire/release events.
-/

namespace ProductListing

/-- Scalar JSON values as they arrive in request bodies and as psycopg2 adapts
Python values into SQL parameters (`None` becomes SQL NULL).  JSON floats are
outside the model; no analysed behaviour depends on them. -/
inductive JVal where
  | jstr (s : String)
  | jint (n : Int)
  | jbool (b : Bool)
  | jnull
deriving DecidableEq

/-- A JSON object body, as a key/value list with distinct keys
(the shape `request.get_json` hands to the handlers). -/
abbrev JsonObj := List (String × JVal)

/-- `data.get(k)`: the value stored under `k`, if any. -/
def dictGet (data : JsonObj) (k : String) : Option JVal :=
  (data.find? (fun kv => kv.1 == k)).map (fun kv => kv.2)

/-- Characters Python's `int(...)` and `str.strip()` treat as whitespace. -/
def pyWs (c : Char) : Bool :=
  c == ' ' || c == '\t' || c == '\n' || c == '\r' || c == '\x0b' || c == '\x0c'

/-- Strip leading and trailing whitespace from a character list. -/
def trimChars (l : List Char) : List Char :=
  ((l.dropWhile pyWs).reverse.dropWhile pyWs).reverse

/-- Numeric value of a digit string. -/
def digitsToNat (l : List Char) : Nat :=
  l.foldl (fun acc c => acc * 10 + (c.toNat - '0'.toNat)) 0

/-- Python `int(s)` on a string: optional surrounding whitespace, an optional
sign, then at least one decimal digit; anything else raises `ValueError`
(modelled as `none`). -/
def pyStrToInt (s : String) : Option Int :=
  match trimChars s.data with
  | [] => none
  | c :: rest =>
      let signed : Int × List Char :=
        if c = '-' then (-1, rest)
        else if c = '+' then (1, rest)
        else (1, c :: rest)
      if !signed.2.isEmpty && signed.2.all Char.isDigit then
        some (signed.1 * (digitsToNat signed.2 : Int))
      else none

/-- Python `int(v)` on a JSON scalar: ints pass through, booleans become 0/1,
strings parse as decimal integers, `None` raises (modelled as `none`). -/
def pyIntCoerce : JVal → Option Int
  | .jint n => some n
  | .jbool b => some (if b then 1 else 0)
  | .jstr s => pyStrToInt s
  | .jnull => none

/-- A row of the `products` table
(`product_id`, `product_name`, `price`, `product_image_url`). -/
structure Product where
  product_id : Int
  product_name : String
  price : Int
  product_image_url : Option String
deriving DecidableEq

/-- Durable state behind one database endpoint: the committed rows and the
next value of the generated `product_id` sequence. -/
structure DbState where
  rows : List Product
  nextId : Int
deriving DecidableEq

/-- The two connection-pool roles (primary_pool / replica_pool). -/
inductive Role where
  | primary
  | replica
deriving DecidableEq

/-- Durable database state behind each of the two pools. -/
structure World where
  primaryDb : DbState
  replicaDb : DbState
deriving DecidableEq

def roleDb (w : World) : Role → DbState
  | .primary => w.primaryDb
  | .replica => w.replicaDb

def setRoleDb (w : World) : Role → DbState → World
  | .primary, db => { w with primaryDb := db }
  | .replica, db => { w with replicaDb := db }

/-- The three columns the update route may touch. -/
inductive Col where
  | product_name
  | price
  | product_image_url
deriving DecidableEq

def Col.colName : Col → String
  | .product_name => "product_name"
  | .price => "price"
  | .product_image_url => "product_image_url"

/-- The SQL statements the three routes hand to `run_query`: the list query and
insert statement are fixed literals; the update statement's shape depends only
on the column set assembled from the payload's allow-listed keys. -/
inductive SqlStmt where
  | selectProducts
  | insertProduct
  | updateProduct (cols : List Col)
deriving DecidableEq

/-- The exact statement text the source passes to `cur.execute` (the update
text is assembled by `", ".join(f"{col} = %s" ...)`; values stay behind `%s`
placeholders and are bound positionally). -/
def SqlStmt.text : SqlStmt → String
  | .selectProducts =>
      "SELECT product_id, product_name, price, product_image_url FROM products ORDER BY product_id LIMIT %s OFFSET %s"
  | .insertProduct =>
      "\n        INSERT INTO products (product_name, price, product_image_url)\n        VALUES (%s, %s, %s)\n        RETURNING product_id, product_name, price, product_image_url;\n    "
  | .updateProduct cols =>
      "UPDATE products SET " ++
        String.intercalate ", " (cols.map (fun c => c.colName ++ " = %s")) ++
        " WHERE product_id = %s RETURNING product_id, product_name, price, product_image_url;"

/-- Ordering of rows by ascending `product_id` (the `ORDER BY` column). -/
def idLe (p q : Product) : Prop := p.product_id ≤ q.product_id

instance : DecidableRel idLe := fun p q => Int.decLe p.product_id q.product_id

instance : IsTotal Product idLe := ⟨fun p q => Int.le_total p.product_id q.product_id⟩

instance : IsTrans Product idLe := ⟨fun _ _ _ h h2 => Int.le_trans h h2⟩

def sortById (l : List Product) : List Product := List.insertionSort idLe l

/-- A `SET col = value` assignment is type-compatible with the table schema. -/
def wellTypedSet : Col × JVal → Bool
  | (.product_name, .jstr _) => true
  | (.price, .jint _) => true
  | (.product_image_url, .jstr _) => true
  | (.product_image_url, .jnull) => true
  | _ => false

/-- Apply one type-correct `SET` assignment to a row. -/
def applySet (p : Product) : Col × JVal → Product
  | (.product_name, .jstr s) => { p with product_name := s }
  | (.price, .jint n) => { p with price := n }
  | (.product_image_url, .jstr s) => { p with product_image_url := some s }
  | (.product_image_url, .jnull) => { p with product_image_url := none }
  | _ => p

def applySets (p : Product) (sets : List (Col × JVal)) : Product :=
  sets.foldl applySet p

/-- Execution of one statement against one transaction-local database view
(conventional relational semantics, autocommit off): a type or parameter
mismatch raises; otherwise the statement yields the updated view and the rows
produced by `ORDER BY ... LIMIT/OFFSET` or a `RETURNING` clause. -/
def SqlStmt.exec : SqlStmt → List JVal → DbState → Except String (DbState × List Product)
  | .selectProducts, [.jint limit, .jint offset], db =>
      if limit < 0 then .error "LIMIT must not be negative"
      else if offset < 0 then .error "OFFSET must not be negative"
      else .ok (db, ((sortById db.rows).drop offset.toNat).take limit.toNat)
  | .selectProducts, _, _ => .error "wrong number of parameters"
  | .insertProduct, [nameV, priceV, imageV], db =>
      match nameV, priceV, imageV with
      | .jstr n, .jint pr, .jstr u =>
          let row : Product := ⟨db.nextId, n, pr, some u⟩
          .ok (⟨db.rows ++ [row], db.nextId + 1⟩, [row])
      | .jstr n, .jint pr, .jnull =>
          let row : Product := ⟨db.nextId, n, pr, none⟩
          .ok (⟨db.rows ++ [row], db.nextId + 1⟩, [row])
      | _, _, _ => .error "column type mismatch"
  | .insertProduct, _, _ => .error "wrong number of parameters"
  | .updateProduct cols, params, db =>
      if params.length = cols.length + 1 then
        match params.drop cols.length with
        | [.jint pid] =>
            let sets := cols.zip (params.take cols.length)
            if sets.all wellTypedSet then
              .ok (⟨db.rows.map (fun p => if p.product_id == pid then applySets p sets else p),
                    db.nextId⟩,
                   (db.rows.filter (fun p => p.product_id == pid)).map (fun p => applySets p sets))
            else .error "column type mismatch"
        | _ => .error "WHERE parameter type mismatch"
      else .error "wrong number of parameters"

/-- Pool interactions: `pool.getconn()` and `pool.putconn(conn)`. -/
inductive PoolEvent where
  | getconn (r : Role)
  | putconn (r : Role)
deriving DecidableEq

def PoolEvent.role : PoolEvent → Role
  | .getconn r => r
  | .putconn r => r

/-- Outcome of one `run_query` call: the value returned (or the exception the
caller sees), the durable state after the call, and the pool events it made. -/
structure QueryOutcome where
  result : Except String (Option (List Product))
  world : World
  events : List PoolEvent

/-- `run_query(pool, query, params, fetch)` from server.py.  `conn =
pool.getconn()` opens a transaction view of that pool's durable state;
`cur.execute` runs the statement on the view.  If `fetch`, the fetched rows
are returned immediately — before the `conn.commit()` line — so the open
transaction is discarded (rolled back) when the `finally` block returns the
connection to its pool; only the non-fetch path commits the view.  On an
execution error the exception propagates after the `finally` releases the
connection. -/
def run_query (w : World) (pool : Role) (query : SqlStmt) (params : List JVal)
    (fetch : Bool) : QueryOutcome :=
  match query.exec params (roleDb w pool) with
  | .error e => { result := .error e, world := w, events := [.getconn pool, .putconn pool] }
  | .ok (txn, rows) =>
      if fetch then
        { result := .ok (some rows), world := w, events := [.getconn pool, .putconn pool] }
      else
        { result := .ok none, world := setRoleDb w pool txn,
          events := [.getconn pool, .putconn pool] }

/-- Response bodies produced by the handlers (`jsonify` payloads). -/
inductive RespBody where
  | products (l : List Product)
  | product (p : Product)
  | errMsg (error : String)
  | errDetail (error detail : String)
deriving DecidableEq

structure HttpResponse where
  status : Nat
  body : RespBody
deriving DecidableEq

/-- Outcome of handling one request: the response, the durable state after the
request, and the pool events made while handling it. -/
structure HandlerOutcome where
  response : HttpResponse
  world : World
  events : List PoolEvent

/-- Default admin token, `os.getenv("ADMIN_TOKEN", "token")`. -/
def ADMIN_TOKEN : String := "token"

/-- `auth.split(" ", 1)[1].strip()` applied after `auth.startswith("Bearer ")`:
the text after the first space, stripped. -/
def bearerToken (auth : String) : Option String :=
  if "Bearer ".data.isPrefixOf auth.data then some ⟨trimChars (auth.data.drop 7)⟩
  else none

/-- The token check the `admin_required` decorator in server.py performs:
accept a non-empty `X-Admin-Token` header, else fall back to an
`Authorization: Bearer <token>` header; accept exactly when the resulting
token is non-empty and equals the configured admin token.  (The decorator
wraps a handler and returns 401 without calling it when this check fails —
but server.py never applies it to any route.) -/
def admin_required (xAdminToken authorization : Option String) (adminToken : String) : Bool :=
  let token : Option String :=
    match xAdminToken with
    | some t => if t.isEmpty then none else some t
    | none => none
  let token : Option String :=
    match token with
    | some t => some t
    | none => (bearerToken (authorization.getD "")).bind (fun t => some t)
  match token with
  | some t => !t.isEmpty && t == adminToken
  | none => false

/-- `int(request.args.get(name, default))`: the default when the query
parameter is absent, else Python `int()` of the supplied string. -/
def parseIntArg (arg : Option String) (dflt : Int) : Option Int :=
  match arg with
  | none => some dflt
  | some s => pyStrToInt s

/-- `GET /products` (server.py `get_products`).  Parses `limit`/`offset`
(defaults 100/0, `ValueError` gives 400), then queries the replica pool.  The
first `run_query` attempt passes `q.as_string(...)`, which for a plain
`sql.SQL` yields the same statement text, so on a query failure the `except`
arm retries the identical parameterized query once against the replica before
answering 500. -/
def get_products (w : World) (limitArg offsetArg : Option String) : HandlerOutcome :=
  match parseIntArg limitArg 100, parseIntArg offsetArg 0 with
  | some limit, some offset =>
      let out1 := run_query w Role.replica .selectProducts [.jint limit, .jint offset] true
      match out1.result with
      | .ok (some rows) => ⟨⟨200, .products rows⟩, out1.world, out1.events⟩
      | .ok none => ⟨⟨500, .errMsg "internal server error"⟩, out1.world, out1.events⟩
      | .error _ =>
          let out2 := run_query out1.world Role.replica .selectProducts
            [.jint limit, .jint offset] true
          match out2.result with
          | .ok (some rows) => ⟨⟨200, .products rows⟩, out2.world, out1.events ++ out2.events⟩
          | .ok none =>
              ⟨⟨500, .errMsg "internal server error"⟩, out2.world, out1.events ++ out2.events⟩
          | .error ex =>
              ⟨⟨500, .errDetail "failed to query replica" ex⟩, out2.world,
                out1.events ++ out2.events⟩
  | _, _ => ⟨⟨400, .errMsg "limit/offset must be integers"⟩, w, []⟩

/-- `not name or not isinstance(name, str)` inverted: the payload's
`product_name` when it is a non-empty JSON string, else `none`. -/
def validName : Option JVal → Option String
  | some (.jstr s) => if s.isEmpty then none else some s
  | _ => none

/-- `int(price)` where `price = data.get("price")` (absent raises). -/
def coercePrice : Option JVal → Option Int
  | some v => pyIntCoerce v
  | none => none

/-- `POST /admin/products` (server.py `create_product`).  Validates the body
(`missing json body`, `product_name required`, `price must be an integer`)
before any database work, then runs the INSERT ... RETURNING on the primary
pool with `fetch=True` and answers 201 with the returned row. -/
def create_product (w : World) (body : Option JsonObj) : HandlerOutcome :=
  match body with
  | none => ⟨⟨400, .errMsg "missing json body"⟩, w, []⟩
  | some data =>
    if data.isEmpty then ⟨⟨400, .errMsg "missing json body"⟩, w, []⟩
    else
      match validName (dictGet data "product_name") with
      | none => ⟨⟨400, .errMsg "product_name required"⟩, w, []⟩
      | some nm =>
        match coercePrice (dictGet data "price") with
        | none => ⟨⟨400, .errMsg "price must be an integer"⟩, w, []⟩
        | some priceI =>
          let out := run_query w Role.primary .insertProduct
            [.jstr nm, .jint priceI, (dictGet data "product_image_url").getD .jnull] true
          match out.result with
          | .ok (some (r :: _)) => ⟨⟨201, .product r⟩, out.world, out.events⟩
          | .ok (some []) => ⟨⟨500, .errMsg "insert failed"⟩, out.world, out.events⟩
          | .ok none => ⟨⟨500, .errMsg "insert failed"⟩, out.world, out.events⟩
          | .error e => ⟨⟨500, .errDetail "failed to insert" e⟩, out.world, out.events⟩

/-- The fixed allow-list `allowed = {"product_name", "price",
"product_image_url"}`.  Python iterates `data.keys() & allowed` in an order
that is a deterministic function of the key set; the embedding fixes that
order to the declaration order below. -/
def allowedCols : List Col := [.product_name, .price, .product_image_url]

/-- `updates = {k: data[k] for k in data.keys() & allowed}`: the allow-listed
columns present in the payload, with their supplied values. -/
def filterUpdates (data : JsonObj) : List (Col × JVal) :=
  allowedCols.filterMap (fun c => (dictGet data c.colName).map (fun v => (c, v)))

/-- The per-field loop of the update route: values pass through unchanged
except `price`, which must coerce via `int(val)` (failure gives 400). -/
def coerceUpdates : List (Col × JVal) → Option (List JVal)
  | [] => some []
  | (c, v) :: rest =>
      match c with
      | .price =>
          match pyIntCoerce v with
          | some n => (coerceUpdates rest).map (fun vs => JVal.jint n :: vs)
          | none => none
      | .product_name => (coerceUpdates rest).map (fun vs => v :: vs)
      | .product_image_url => (coerceUpdates rest).map (fun vs => v :: vs)

/-- A payload entry the update route can turn into a successful assignment:
`price` must be integer-coercible (the route rewrites it with `int(val)`);
the other columns must carry a value type-compatible with their column. -/
def wellTypedCoerced : Col × JVal → Bool
  | (.price, v) => (pyIntCoerce v).isSome
  | (.product_name, v) => wellTypedSet (.product_name, v)
  | (.product_image_url, v) => wellTypedSet (.product_image_url, v)

/-- The statement text `final_query` the update route assembles: an
`UPDATE ... SET` over exactly the allow-listed columns present in the payload,
with `%s` placeholders for every value. -/
def update_stmt (data : JsonObj) : SqlStmt :=
  .updateProduct ((filterUpdates data).map Prod.fst)

/-- `PATCH /admin/products/<int:product_id>` (server.py `update_product`).
Validates the body, assembles the dynamic `UPDATE ... SET` from the
allow-listed fields, coerces `price`, then runs the statement on the primary
pool with `fetch=True`; an empty returned row set answers 404. -/
def update_product (w : World) (product_id : Int) (body : Option JsonObj) : HandlerOutcome :=
  match body with
  | none => ⟨⟨400, .errMsg "missing json body"⟩, w, []⟩
  | some data =>
    if data.isEmpty then ⟨⟨400, .errMsg "missing json body"⟩, w, []⟩
    else
      let updates := filterUpdates data
      if updates.isEmpty then ⟨⟨400, .errMsg "no updatable fields provided"⟩, w, []⟩
      else
        match coerceUpdates updates with
        | none => ⟨⟨400, .errMsg "price must be integer"⟩, w, []⟩
        | some vals =>
          let out := run_query w Role.primary (update_stmt data)
            (vals ++ [.jint product_id]) true
          match out.result with
          | .ok (some (r :: _)) => ⟨⟨200, .product r⟩, out.world, out.events⟩
          | .ok (some []) => ⟨⟨404, .errMsg "product not found"⟩, out.world, out.events⟩
          | .ok none => ⟨⟨404, .errMsg "product not found"⟩, out.world, out.events⟩
          | .error e => ⟨⟨500, .errDetail "failed to update" e⟩, out.world, out.events⟩

/-- An incoming admin-route request: the two credential headers and the body. -/
structure Request where
  xAdminToken : Option String
  authorization : Option String
  body : Option JsonObj

/-- Dispatch for `POST /admin/products`: server.py registers `create_product`
with only the route decorator — `admin_required` is defined but never applied
— so every request goes straight to the handler, headers unexamined. -/
def handle_create_request (w : World) (req : Request) : HandlerOutcome :=
  create_product w req.body

/-- Dispatch for `PATCH /admin/products/<id>`: as with the create route,
`admin_required` is never applied, so the handler runs unconditionally. -/
def handle_update_request (w : World) (pid : Int) (req : Request) : HandlerOutcome :=
  update_product w pid req.body

/-- An empty store: no rows, id sequences at 1. -/
def w0 : World := ⟨⟨[], 1⟩, ⟨[], 1⟩⟩

/-- A store whose primary holds one committed product. -/
def w1 : World := ⟨⟨[⟨1, "old", 5, none⟩], 2⟩, ⟨[], 1⟩⟩

/-- Every `run_query` call makes exactly one `getconn` followed by one
`putconn`, both on the pool it was given. -/
theorem run_query_events (w : World) (pool : Role) (q : SqlStmt) (params : List JVal)
    (fetch : Bool) :
    (run_query w pool q params fetch).events = [.getconn pool, .putconn pool] := by
  unfold run_query
  rcases q.exec params (roleDb w pool) with e | ⟨txn, rows⟩
  · rfl
  · cases fetch <;> rfl

/-- C1: the list route issues its query only against the replica pool, and the
create and update routes issue their statements only against the primary pool
— every pool event of `get_products` is on the replica, and every pool event
of `create_product` / `update_product` is on the primary, for every request. -/
theorem reads_replica_writes_primary (w : World) (limitArg offsetArg : Option String)
    (body body2 : Option JsonObj) (pid : Int) :
    ((get_products w limitArg offsetArg).events.all (fun e => e.role == Role.replica)) = true ∧
    ((create_product w body).events.all (fun e => e.role == Role.primary)) = true ∧
    ((update_product w pid body2).events.all (fun e => e.role == Role.primary)) = true := by
  refine ⟨?_, ?_, ?_⟩
  · unfold get_products
    simp only [run_query_events]
    repeat' split
    all_goals rfl
  · unfold create_product
    simp only [run_query_events]
    repeat' split
    all_goals rfl
  · unfold update_product
    simp only [run_query_events]
    repeat' split
    all_goals rfl

/-- C3: for every call to `run_query`, the connection acquired from the pool
is released back to that same pool exactly once, on every exit path, and when
statement execution fails the durable state is unchanged (the transaction is
not committed). -/
theorem run_query_releases_once (w : World) (pool : Role) (q : SqlStmt)
    (params : List JVal) (fetch : Bool) :
    (run_query w pool q params fetch).events = [.getconn pool, .putconn pool] ∧
    ∀ e, (run_query w pool q params fetch).result = .error e →
      (run_query w pool q params fetch).world = w := by
  refine ⟨run_query_events w pool q params fetch, ?_⟩
  intro e he
  unfold run_query at he ⊢
  cases hq : q.exec params (roleDb w pool) with
  | error x => rfl
  | ok pr =>
      obtain ⟨txn, rows⟩ := pr
      rw [hq] at he
      cases fetch <;> simp at he

/-- Witness for C3 at a concrete failing call: a malformed parameter list
makes execution fail; the connection is still released once and the world is
unchanged. -/
theorem run_query_releases_once_witness :
    (run_query w0 Role.primary .selectProducts [] true).events =
      [.getconn Role.primary, .putconn Role.primary] ∧
    (run_query w0 Role.primary .selectProducts [] true).world = w0 :=
  ⟨(run_query_releases_once w0 Role.primary .selectProducts [] true).1,
   (run_query_releases_once w0 Role.primary .selectProducts [] true).2
     "wrong number of parameters" rfl⟩

/-- C2 (code bug): server.py defines `admin_required` but never applies it to
the mutating routes, so a POST /admin/products carrying no credential at all —
a request the gate itself would reject — reaches the handler body, executes
its INSERT on the primary pool, and answers 201 instead of 401. -/
theorem create_without_token_reaches_db :
    admin_required none none ADMIN_TOKEN = false ∧
    (handle_create_request w0
      ⟨none, none, some [("product_name", .jstr "x"), ("price", .jint 1)]⟩).response.status
        = 201 ∧
    (handle_create_request w0
      ⟨none, none, some [("product_name", .jstr "x"), ("price", .jint 1)]⟩).events =
        [.getconn Role.primary, .putconn Role.primary] :=
  ⟨rfl, rfl, rfl⟩

/-- C4 (code bug): a valid, credentialed create answers 201 with the new row
(`product_id` 1 on an empty store), but `run_query` returns the fetched
RETURNING rows before ever reaching `conn.commit()`, so the durable state is
unchanged and a subsequent GET /products answers an empty page instead of
including the created row. -/
theorem created_row_not_persisted :
    (handle_create_request w0
      ⟨some "token", none, some [("product_name", .jstr "a"), ("price", .jint 2)]⟩).response =
        ⟨201, .product ⟨1, "a", 2, none⟩⟩ ∧
    (handle_create_request w0
      ⟨some "token", none, some [("product_name", .jstr "a"), ("price", .jint 2)]⟩).world = w0 ∧
    (get_products w0 none none).response = ⟨200, .products []⟩ :=
  ⟨rfl, rfl, rfl⟩

/-- C5 (code bug): patching `price` to 7 on the sole product answers 200 with
the post-update row, but the UPDATE is executed with `fetch=True`, so
`run_query` returns before `conn.commit()` and the products table still holds
the old `price` 5: the included field does not hold the supplied value after
the request. -/
theorem update_not_persisted :
    (handle_update_request w1 1 ⟨some "token", none, some [("price", .jint 7)]⟩).response =
      ⟨200, .product ⟨1, "old", 7, none⟩⟩ ∧
    (handle_update_request w1 1 ⟨some "token", none, some [("price", .jint 7)]⟩).world = w1 ∧
    w1.primaryDb.rows = [⟨1, "old", 5, none⟩] :=
  ⟨rfl, rfl, rfl⟩

/-- A key absent from every entry of the payload is looked up as `none`. -/
theorem dictGet_eq_none (data : JsonObj) (k : String) (h : ∀ kv ∈ data, kv.1 ≠ k) :
    dictGet data k = none := by
  have hf : data.find? (fun kv => kv.1 == k) = none := by
    rw [List.find?_eq_none]
    intro kv hkv
    simpa using h kv hkv
  unfold dictGet
  rw [hf]
  rfl

/-- A payload with no allow-listed key filters to an empty update set. -/
theorem filterUpdates_nil (data : JsonObj)
    (h : ∀ kv ∈ data, kv.1 ∉ ["product_name", "price", "product_image_url"]) :
    filterUpdates data = [] := by
  have h1 : dictGet data "product_name" = none :=
    dictGet_eq_none data _ (fun kv hkv he => h kv hkv (by rw [he]; simp))
  have h2 : dictGet data "price" = none :=
    dictGet_eq_none data _ (fun kv hkv he => h kv hkv (by rw [he]; simp))
  have h3 : dictGet data "product_image_url" = none :=
    dictGet_eq_none data _ (fun kv hkv he => h kv hkv (by rw [he]; simp))
  simp [filterUpdates, allowedCols, Col.colName, h1, h2, h3]

/-- C6: a PATCH whose JSON body contains only keys outside the allow-list
{product_name, price, product_image_url} answers 400 before any database
work: no pool event occurs and no row in the products table is mutated. -/
theorem update_unknown_keys_rejected (w : World) (pid : Int) (data : JsonObj)
    (h : ∀ kv ∈ data, kv.1 ∉ ["product_name", "price", "product_image_url"]) :
    (update_product w pid (some data)).response.status = 400 ∧
    (update_product w pid (some data)).world = w ∧
    (update_product w pid (some data)).events = [] := by
  have hfu : filterUpdates data = [] := filterUpdates_nil data h
  cases data with
  | nil => exact ⟨rfl, rfl, rfl⟩
  | cons kv rest =>
      refine ⟨?_, ?_, ?_⟩ <;> simp [update_product, hfu]

/-- Witness for C6 at a concrete request: a body holding only the unknown key
`"foo"` is rejected with 400 and the store is untouched. -/
theorem update_unknown_keys_rejected_witness :
    (update_product w0 1 (some [("foo", .jint 1)])).response.status = 400 ∧
    (update_product w0 1 (some [("foo", .jint 1)])).world = w0 ∧
    (update_product w0 1 (some [("foo", .jint 1)])).events = [] :=
  update_unknown_keys_rejected w0 1 [("foo", .jint 1)] (by decide)

/-- C7 counterexample: on an empty store (so path id 1 matches no product), a
PATCH whose body is `{"price": "abc"}` answers 400 (the price coercion fails
before the query runs), not the 404 the claim requires of every request with
a non-matching id. -/
theorem update_missing_id_invalid_price_400 :
    w0.primaryDb.rows = [] ∧
    (update_product w0 1 (some [("price", .jstr "abc")])).response.status = 400 ∧
    (update_product w0 1 (some [("price", .jstr "abc")])).response.status ≠ 404 :=
  ⟨rfl, rfl, by decide⟩

/-- When every filtered entry is coercible and type-correct, the update
route's per-field loop succeeds and produces one positionally-bound value per
column, each assignment type-compatible with its column. -/
theorem coerceUpdates_of_typed (l : List (Col × JVal))
    (h : ∀ cv ∈ l, wellTypedCoerced cv = true) :
    ∃ vals, coerceUpdates l = some vals ∧ vals.length = l.length ∧
      (((l.map Prod.fst).zip vals).all wellTypedSet) = true := by
  induction l with
  | nil => exact ⟨[], rfl, rfl, rfl⟩
  | cons cv rest ih =>
      obtain ⟨vals, hv, hlen, hall⟩ := ih (fun x hx => h x (List.mem_cons_of_mem _ hx))
      obtain ⟨c, v⟩ := cv
      cases c with
      | price =>
          have hc : (pyIntCoerce v).isSome = true := by
            simpa [wellTypedCoerced] using h (Col.price, v) (List.mem_cons_self _ _)
          obtain ⟨n, hn⟩ := Option.isSome_iff_exists.mp hc
          refine ⟨JVal.jint n :: vals, ?_, by simp [hlen], ?_⟩
          · simp [coerceUpdates, hn, hv]
          · simp [List.zip_cons_cons, List.all_cons, wellTypedSet, hall]
      | product_name =>
          have hc : wellTypedSet (Col.product_name, v) = true := by
            simpa [wellTypedCoerced] using h (Col.product_name, v) (List.mem_cons_self _ _)
          refine ⟨v :: vals, ?_, by simp [hlen], ?_⟩
          · simp [coerceUpdates, hv]
          · simp [List.zip_cons_cons, List.all_cons, hall, hc]
      | product_image_url =>
          have hc : wellTypedSet (Col.product_image_url, v) = true := by
            simpa [wellTypedCoerced] using h (Col.product_image_url, v) (List.mem_cons_self _ _)
          refine ⟨v :: vals, ?_, by simp [hlen], ?_⟩
          · simp [coerceUpdates, hv]
          · simp [List.zip_cons_cons, List.all_cons, hall, hc]

/-- C7 (amended): for every PATCH whose body passes validation — a non-empty
JSON object with at least one allow-listed field, `price` integer-coercible
if present, and supplied values type-compatible with their columns — and
whose path id matches no existing product, the response is 404 and no row in
the products table is mutated. -/
theorem update_missing_id_not_found (w : World) (pid : Int) (data : JsonObj)
    (h1 : data ≠ [])
    (h2 : filterUpdates data ≠ [])
    (h3 : ∀ cv ∈ filterUpdates data, wellTypedCoerced cv = true)
    (h4 : ∀ p ∈ w.primaryDb.rows, p.product_id ≠ pid) :
    (update_product w pid (some data)).response = ⟨404, .errMsg "product not found"⟩ ∧
    (update_product w pid (some data)).world = w := by
  obtain ⟨vals, hcv, hlen, hall⟩ := coerceUpdates_of_typed _ h3
  have hde : data.isEmpty = false := by
    cases data
    · exact absurd rfl h1
    · rfl
  have hue : (filterUpdates data).isEmpty = false := by
    cases hf : filterUpdates data
    · exact absurd hf h2
    · rfl
  have hclen : ((filterUpdates data).map Prod.fst).length = vals.length := by
    simp [hlen]
  have hdrop : (vals ++ [JVal.jint pid]).drop ((filterUpdates data).map Prod.fst).length
      = [JVal.jint pid] := by
    rw [hclen]
    exact List.drop_left _ _
  have htake : (vals ++ [JVal.jint pid]).take ((filterUpdates data).map Prod.fst).length
      = vals := by
    rw [hclen]
    exact List.take_left _ _
  have hplen : (vals ++ [JVal.jint pid]).length
      = ((filterUpdates data).map Prod.fst).length + 1 := by
    simp [hclen]
  have hfilter : (roleDb w Role.primary).rows.filter (fun p => p.product_id == pid) = [] := by
    rw [List.filter_eq_nil_iff]
    intro p hp
    simpa using h4 p hp
  have hexec : SqlStmt.exec (update_stmt data) (vals ++ [JVal.jint pid]) (roleDb w Role.primary)
      = .ok (⟨(roleDb w Role.primary).rows.map (fun p =>
          if p.product_id == pid then
            applySets p (((filterUpdates data).map Prod.fst).zip vals) else p),
          (roleDb w Role.primary).nextId⟩, []) := by
    simp only [update_stmt, SqlStmt.exec]
    rw [if_pos hplen, hdrop]
    simp only [htake, hall, if_true, hfilter, List.map_nil]
  have hout : update_product w pid (some data)
      = ⟨⟨404, .errMsg "product not found"⟩, w,
          [.getconn Role.primary, .putconn Role.primary]⟩ := by
    simp only [update_product, hde, Bool.false_eq_true, if_false, hue, hcv]
    rw [run_query, hexec]
    rfl
  rw [hout]
  exact ⟨rfl, rfl⟩

/-- Witness for the amended C7: a valid `{"price": 7}` PATCH against id 1 on
an empty store answers 404 and leaves the store unchanged. -/
theorem update_missing_id_not_found_witness :
    (update_product w0 1 (some [("price", .jint 7)])).response
      = ⟨404, .errMsg "product not found"⟩ ∧
    (update_product w0 1 (some [("price", .jint 7)])).world = w0 :=
  update_missing_id_not_found w0 1 [("price", .jint 7)] (by decide) (by decide) (by decide)
    (by decide)

/-- C8: GET /products treats `limit` and `offset` as optional integer query
parameters defaulting to 100 and 0; a parse failure on either answers 400
with no database work, and on success the response is the ascending-id page
of the replica's products restricted by the given limit and offset (the
listing order is a sorted permutation of the stored rows). -/
theorem get_products_pagination (w : World) (limitArg offsetArg : Option String) :
    ((parseIntArg limitArg 100 = none ∨ parseIntArg offsetArg 0 = none) →
      (get_products w limitArg offsetArg).response
        = ⟨400, .errMsg "limit/offset must be integers"⟩ ∧
      (get_products w limitArg offsetArg).events = []) ∧
    (∀ limit offset : Int, parseIntArg limitArg 100 = some limit →
      parseIntArg offsetArg 0 = some offset → 0 ≤ limit → 0 ≤ offset →
      (get_products w limitArg offsetArg).response =
        ⟨200, .products (((sortById w.replicaDb.rows).drop offset.toNat).take limit.toNat)⟩ ∧
      List.Sorted idLe (sortById w.replicaDb.rows) ∧
      (sortById w.replicaDb.rows).Perm w.replicaDb.rows) ∧
    parseIntArg none 100 = some 100 ∧ parseIntArg none 0 = some 0 := by
  refine ⟨?_, ?_, rfl, rfl⟩
  · intro h
    unfold get_products
    rcases h with h | h
    · rw [h]
      cases parseIntArg offsetArg 0 <;> exact ⟨rfl, rfl⟩
    · rw [h]
      cases parseIntArg limitArg 100 <;> exact ⟨rfl, rfl⟩
  · intro limit offset hl ho hl0 ho0
    have hexec : SqlStmt.exec .selectProducts [.jint limit, .jint offset] (roleDb w Role.replica)
        = .ok (roleDb w Role.replica,
            ((sortById (roleDb w Role.replica).rows).drop offset.toNat).take limit.toNat) := by
      simp only [SqlStmt.exec]
      rw [if_neg (by omega), if_neg (by omega)]
    refine ⟨?_, List.sorted_insertionSort idLe _, List.perm_insertionSort idLe _⟩
    unfold get_products
    simp only [hl, ho]
    rw [run_query, hexec]
    rfl

/-- Witness for C8: `limit=abc` answers 400; with both parameters absent the
defaults apply and the empty store lists an empty page. -/
theorem get_products_pagination_witness :
    (get_products w0 (some "abc") none).response
      = ⟨400, .errMsg "limit/offset must be integers"⟩ ∧
    (get_products w0 none none).response = ⟨200, .products []⟩ :=
  ⟨((get_products_pagination w0 (some "abc") none).1 (Or.inl (by decide))).1,
   ((get_products_pagination w0 none none).2.1 100 0 rfl rfl (by decide) (by decide)).1⟩

/-- C9: a POST /admin/products with a missing JSON body, a missing, empty or
non-string `product_name`, or a `price` that does not coerce to an integer
answers 400, makes no pool event (failure is detected before any database
work), and creates no row. -/
theorem create_invalid_input_rejected (w : World) (body : Option JsonObj)
    (h : body = none ∨ ∃ data, body = some data ∧
        (data.isEmpty = true ∨ validName (dictGet data "product_name") = none ∨
          coercePrice (dictGet data "price") = none)) :
    (create_product w body).response.status = 400 ∧
    (create_product w body).events = [] ∧
    (create_product w body).world = w := by
  rcases h with rfl | ⟨data, rfl, hcase⟩
  · exact ⟨rfl, rfl, rfl⟩
  · by_cases he : data.isEmpty = true
    · refine ⟨?_, ?_, ?_⟩ <;> simp [create_product, he]
    · rcases hcase with hcase | hn | hp
      · exact absurd hcase he
      · refine ⟨?_, ?_, ?_⟩ <;> simp [create_product, he, hn]
      · cases hv : validName (dictGet data "product_name") with
        | none => refine ⟨?_, ?_, ?_⟩ <;> simp [create_product, he, hv]
        | some nm => refine ⟨?_, ?_, ?_⟩ <;> simp [create_product, he, hv, hp]

/-- Witness for C9: `price="abc"` on create answers 400 with no pool event
and no state change. -/
theorem create_invalid_input_rejected_witness :
    (create_product w0
      (some [("product_name", .jstr "a"), ("price", .jstr "abc")])).response.status = 400 ∧
    (create_product w0 (some [("product_name", .jstr "a"), ("price", .jstr "abc")])).events
      = [] ∧
    (create_product w0 (some [("product_name", .jstr "a"), ("price", .jstr "abc")])).world
      = w0 :=
  create_invalid_input_rejected w0 (some [("product_name", .jstr "a"), ("price", .jstr "abc")])
    (Or.inr ⟨[("product_name", .jstr "a"), ("price", .jstr "abc")], rfl,
      Or.inr (Or.inr (by decide))⟩)

/-- The columns filtered out of a payload depend only on which keys are
present, never on the stored values. -/
theorem filterMap_map_fst_congr {α β : Type} (cols : List α) (f g : α → Option β)
    (h : ∀ c, (f c).isSome = (g c).isSome) :
    (cols.filterMap (fun c => (f c).map (fun v => (c, v)))).map Prod.fst =
      (cols.filterMap (fun c => (g c).map (fun v => (c, v)))).map Prod.fst := by
  induction cols with
  | nil => rfl
  | cons c rest ih =>
      have hc := h c
      cases hf : f c <;> cases hg : g c
      · simp [List.filterMap_cons, hf, hg, ih]
      · rw [hf, hg] at hc
        simp at hc
      · rw [hf, hg] at hc
        simp at hc
      · simp [List.filterMap_cons, hf, hg, ih]

/-- The update route's column list is always a sublist of the fixed
allow-list, whatever the payload holds. -/
theorem updateCols_sublist (data : JsonObj) :
    ((filterUpdates data).map Prod.fst).Sublist allowedCols := by
  unfold filterUpdates allowedCols
  cases h1 : dictGet data (Col.product_name).colName <;>
    cases h2 : dictGet data (Col.price).colName <;>
      cases h3 : dictGet data (Col.product_image_url).colName <;>
        simp [List.filterMap_cons, h1, h2, h3]

/-- C10: the statement text the update route hands to the query executor is
independent of client-supplied values — two payloads exposing the same
allow-listed key set produce identical text (values travel only in the
positional parameter list) — and the only identifiers interpolated into the
SET clause are columns drawn from the fixed allow-list. -/
theorem statement_text_value_independent (d1 d2 : JsonObj) :
    ((∀ c : Col, (dictGet d1 c.colName).isSome = (dictGet d2 c.colName).isSome) →
      (update_stmt d1).text = (update_stmt d2).text) ∧
    ((filterUpdates d1).map Prod.fst).Sublist allowedCols := by
  refine ⟨?_, updateCols_sublist d1⟩
  intro h
  unfold update_stmt
  have hcols : (filterUpdates d1).map Prod.fst = (filterUpdates d2).map Prod.fst := by
    unfold filterUpdates
    exact filterMap_map_fst_congr allowedCols _ _ (fun c => h c)
  rw [hcols]

/-- Witness for C10: a payload with `price` plus an ignored junk key and a
payload with only `price` (different values) yield the same statement text,
with its column set inside the allow-list. -/
theorem statement_text_value_independent_witness :
    (update_stmt [("price", JVal.jint 1), ("junk", JVal.jstr "x")]).text =
      (update_stmt [("price", JVal.jint 999)]).text ∧
    ((filterUpdates [("price", JVal.jint 1), ("junk", JVal.jstr "x")]).map Prod.fst).Sublist
      allowedCols :=
  ⟨(statement_text_value_independent [("price", JVal.jint 1), ("junk", JVal.jstr "x")]
      [("price", JVal.jint 999)]).1 (fun c => by cases c <;> rfl),
   (statement_text_value_independent [("price", JVal.jint 1), ("junk", JVal.jstr "x")]
      [("price", JVal.jint 999)]).2⟩

end ProductListing
